import Mathlib

/-!
Shallow embedding of the letter-request workflow server
(src/server/src/handlers plus the schema file), and proofs of the
specification claims about it.

Conventions of the embedding:
* every table is a `List` of rows inside a `DB` record; list order models
  the store's row-return order (serial ids ascending; the handlers never
  sort the lookups they take `[0]` of);
* `db.select().where(...)` followed by `[0]` is `List.find?` / `filter`
  then `head?`;
* a thrown `Error` is `Except.error` with the constant part of the source
  message; every handler returns `DB × Except String α` so that a throw
  that happens after a write still exposes the partially-mutated state,
  exactly as the transaction-less source does;
* timestamps (`new Date()`, `defaultNow()`) are a `now : Nat` parameter.
-/

inductive UserRole where
  | STUDENT | STAFF_PRODI | KAPRODI | STAFF_FAKULTAS | DEKAN
  | WD1 | WD2 | WD3 | KABAG_TU
  | KAUR_AKADEMIK | KAUR_KEMAHASISWAAN | KAUR_KEUANGAN | ADMIN
deriving DecidableEq, Repr

inductive RequestStatus where
  | DRAFT | APPROVED_KAPRODI | FORWARDED_TO_DEKAN
  | DISPOSISI_TO_WD1 | DISPOSISI_TO_WD2 | DISPOSISI_TO_WD3
  | DISPOSISI_TO_KABAG_TU | DISPOSISI_TO_KAUR_AKADEMIK
  | DISPOSISI_TO_KAUR_KEMAHASISWAAN | DISPOSISI_TO_KAUR_KEUANGAN
  | PROCESSED_BY_WD1 | PROCESSED_BY_WD2 | PROCESSED_BY_WD3
  | PROCESSED_BY_KABAG_TU | PROCESSED_BY_KAUR_AKADEMIK
  | PROCESSED_BY_KAUR_KEMAHASISWAAN | PROCESSED_BY_KAUR_KEUANGAN
  | TTD_READY | TTD_DONE | RETURNED_TO_PRODI
  | PRINTED | DELIVERED | ARCHIVED | REJECTED | ESCALATED
deriving DecidableEq, Repr

inductive Priority where
  | NORMAL | URGENT
deriving DecidableEq, Repr

inductive ActionType where
  | CREATED | APPROVED | REJECTED | FORWARDED | DISPOSISI_ASSIGNED
  | PROCESSED | ESCALATED | SIGNED | RETURNED | PRINTED
  | DELIVERED | ARCHIVED | NOTE_ADDED | DOCUMENT_UPLOADED
deriving DecidableEq, Repr

structure User where
  id : Nat
  email : String
  name : String
  role : UserRole
  prodi : Option String
deriving DecidableEq, Repr

structure Student where
  id : Nat
  nim : String
  name : String
  prodi : String
deriving DecidableEq, Repr

structure LetterRequest where
  id : Nat
  student_id : Nat
  created_by_user_id : Nat
  letter_type : String
  purpose : String
  priority : Priority
  status : RequestStatus
  current_handler_user_id : Option Nat
  dekan_instructions : Option String
  final_letter_url : Option String
  created_at : Nat
  updated_at : Nat
deriving DecidableEq, Repr

structure SupportingDocument where
  id : Nat
  letter_request_id : Nat
  file_name : String
  file_url : String
  uploaded_by_user_id : Nat
  created_at : Nat
deriving DecidableEq, Repr

structure TrackingLog where
  letter_request_id : Nat
  user_id : Nat
  action_type : ActionType
  description : String
  notes : Option String
  previous_status : Option RequestStatus
  new_status : Option RequestStatus
  created_at : Nat
deriving DecidableEq, Repr

structure DispositionAssignment where
  id : Nat
  letter_request_id : Nat
  assigned_to_user_id : Nat
  assigned_by_user_id : Nat
  instructions : String
  order_sequence : Int
  is_completed : Bool
  completed_at : Option Nat
  notes : Option String
  created_at : Nat
deriving DecidableEq, Repr

structure DB where
  users : List User
  students : List Student
  letter_requests : List LetterRequest
  supporting_documents : List SupportingDocument
  tracking_logs : List TrackingLog
  disposition_assignments : List DispositionAssignment
deriving DecidableEq, Repr

/-! Query helpers shared by the handlers. -/

/-- Models `db.select().from(usersTable).where(eq(usersTable.id, uid))` then `[0]`. -/
def findUser (db : DB) (uid : Nat) : Option User :=
  db.users.find? (fun u => u.id == uid)

/-- Models `db.select().from(letterRequestsTable).where(eq(letterRequestsTable.id, rid))` then `[0]`. -/
def findRequest (db : DB) (rid : Nat) : Option LetterRequest :=
  db.letter_requests.find? (fun r => r.id == rid)

/-- Models `db.select().from(studentsTable).where(eq(studentsTable.id, sid))` then `[0]`. -/
def findStudent (db : DB) (sid : Nat) : Option Student :=
  db.students.find? (fun s => s.id == sid)

/-- Models `db.select().from(usersTable).where(eq(usersTable.role, role))`. -/
def usersWithRole (db : DB) (role : UserRole) : List User :=
  db.users.filter (fun u => u.role == role)

/-- The `[0]` / `.limit(1)` element of a role lookup ("first found" routing). -/
def firstUserWithRole (db : DB) (role : UserRole) : Option User :=
  (usersWithRole db role).head?

/-- Models `db.update(letterRequestsTable).set(...).where(eq(id, rid))`. -/
def updateRequest (db : DB) (rid : Nat) (f : LetterRequest → LetterRequest) : DB :=
  { db with letter_requests :=
      db.letter_requests.map (fun r => if r.id == rid then f r else r) }

/-- Models `db.update(dispositionAssignmentsTable).set(...).where(eq(id, aid))`. -/
def updateAssignment (db : DB) (aid : Nat) (f : DispositionAssignment → DispositionAssignment) : DB :=
  { db with disposition_assignments :=
      db.disposition_assignments.map (fun a => if a.id == aid then f a else a) }

/-- Models `db.insert(trackingLogsTable).values(...)`. -/
def appendLog (db : DB) (l : TrackingLog) : DB :=
  { db with tracking_logs := db.tracking_logs ++ [l] }

/-- Models `db.insert(dispositionAssignmentsTable).values(...)` (batch). -/
def addAssignments (db : DB) (rows : List DispositionAssignment) : DB :=
  { db with disposition_assignments := db.disposition_assignments ++ rows }

/-- Fresh serial id for `letter_requests` (one above every existing id). -/
def freshRequestId (db : DB) : Nat :=
  (db.letter_requests.map (fun r => r.id)).foldr max 0 + 1

/-- Fresh serial id for `supporting_documents`. -/
def freshDocId (db : DB) : Nat :=
  (db.supporting_documents.map (fun d => d.id)).foldr max 0 + 1

/-- Fresh serial id for `disposition_assignments`. -/
def freshAssignmentId (db : DB) : Nat :=
  (db.disposition_assignments.map (fun a => a.id)).foldr max 0 + 1

/-- Models the JS idiom `input.notes || null`: an absent note stays absent and
an empty-string note is coerced to null (empty strings are falsy). -/
def notesOrNull (notes : Option String) : Option String :=
  match notes with
  | none => none
  | some s => if s = "" then none else some s

/-! Input records, mirroring the zod input schemas in the shared schema file. -/

structure SupportingDocInput where
  file_name : String
  file_url : String
deriving DecidableEq, Repr

structure CreateLetterRequestInput where
  student_id : Nat
  letter_type : String
  purpose : String
  priority : Priority
  supporting_documents : Option (List SupportingDocInput)
deriving DecidableEq, Repr

structure UpdateRequestStatusInput where
  request_id : Nat
  new_status : RequestStatus
  notes : Option String
  next_handler_user_id : Option Nat
deriving DecidableEq, Repr

structure AssignmentInput where
  user_id : Nat
  order_sequence : Int
deriving DecidableEq, Repr

structure CreateDispositionInput where
  request_id : Nat
  instructions : String
  assignments : List AssignmentInput
deriving DecidableEq, Repr

structure ProcessDispositionInput where
  assignment_id : Nat
  notes : Option String
  escalate : Bool
  flag_for_coordination : Bool
deriving DecidableEq, Repr

structure UploadFinalLetterInput where
  request_id : Nat
  file_url : String
deriving DecidableEq, Repr

structure SignLetterInput where
  request_id : Nat
  signature_data : String
deriving DecidableEq, Repr

/-! The handlers. -/

/-- Inserts the provided supporting documents one at a time, in input order,
as the `for` loop in `createLetterRequest` does, each with a fresh serial id. -/
def insertDocs (rid uid now : Nat) : DB → List SupportingDocInput → DB
  | db, [] => db
  | db, d :: ds =>
      insertDocs rid uid now
        { db with supporting_documents :=
            db.supporting_documents ++
              [{ id := freshDocId db, letter_request_id := rid,
                 file_name := d.file_name, file_url := d.file_url,
                 uploaded_by_user_id := uid, created_at := now }] } ds

/-- The `if (input.supporting_documents && ...) { for ... }` step of
`createLetterRequest`: an absent document list inserts nothing (so does an
empty one, the loop being empty). -/
def maybeInsertDocs (rid uid now : Nat) (db : DB) :
    Option (List SupportingDocInput) → DB
  | none => db
  | some docs => insertDocs rid uid now db docs

/-- Embedding of `createLetterRequest` (the implemented handler body; the file
also carries an unreachable placeholder declaration below it). -/
def createLetterRequest (db : DB) (input : CreateLetterRequestInput) (userId : Nat)
    (now : Nat) : DB × Except String LetterRequest :=
  match findStudent db input.student_id with
  | none => (db, Except.error "Student not found")
  | some student =>
    -- query by role KAPRODI, then `.find(user => user.prodi === student.prodi)`
    match (usersWithRole db UserRole.KAPRODI).find?
        (fun u => u.prodi == some student.prodi) with
    | none => (db, Except.error "No Kaprodi found for prodi")
    | some kaprodi =>
      let rid := freshRequestId db
      let req : LetterRequest :=
        { id := rid, student_id := input.student_id, created_by_user_id := userId,
          letter_type := input.letter_type, purpose := input.purpose,
          priority := input.priority, status := RequestStatus.DRAFT,
          current_handler_user_id := some kaprodi.id,
          dekan_instructions := none, final_letter_url := none,
          created_at := now, updated_at := now }
      let db1 := { db with letter_requests := db.letter_requests ++ [req] }
      let db2 := maybeInsertDocs rid userId now db1 input.supporting_documents
      let db3 := appendLog db2
        { letter_request_id := rid, user_id := userId,
          action_type := ActionType.CREATED,
          description := "Letter request created: " ++ input.letter_type,
          notes := some ("Purpose: " ++ input.purpose),
          previous_status := none,
          new_status := some RequestStatus.DRAFT, created_at := now }
      (db3, Except.ok req)

/-- Tracking-log action chosen for a generic status update; the spec fixes only
that one log with the previous/new status pair and the notes is written, and
the handler's test expects action `APPROVED` for an approval and log rows for a
rejection, so the action is derived from the new status. -/
def updateActionFor (s : RequestStatus) : ActionType :=
  match s with
  | RequestStatus.APPROVED_KAPRODI => ActionType.APPROVED
  | RequestStatus.REJECTED => ActionType.REJECTED
  | _ => ActionType.FORWARDED

/-- Modelled from the spec: the `updateRequestStatus` handler body is missing
from the source (the file holds only a placeholder declaration, its test
suite, and its input schema). Modelled from spec 4.1 `UpdateStatus`:
actingUser must be the request's creator or its current handler, else the
call fails with the permission error its test expects; on success the status
becomes `newStatus`, the handler becomes `nextHandler` when provided (else
unchanged), `updated_at` becomes now, and exactly one TrackingLog row with
the previous/new status pair and the notes is appended. A missing request
fails with the not-found error its test expects. -/
def updateRequestStatus (db : DB) (input : UpdateRequestStatusInput) (userId : Nat)
    (now : Nat) : DB × Except String LetterRequest :=
  match findRequest db input.request_id with
  | none => (db, Except.error "Letter request not found")
  | some req =>
    if req.created_by_user_id ≠ userId ∧ req.current_handler_user_id ≠ some userId then
      (db, Except.error "User does not have permission to update this request")
    else
      let upd : LetterRequest → LetterRequest := fun r =>
        { r with status := input.new_status,
                 current_handler_user_id :=
                   match input.next_handler_user_id with
                   | some h => some h
                   | none => r.current_handler_user_id,
                 updated_at := now }
      let db1 := updateRequest db input.request_id upd
      let db2 := appendLog db1
        { letter_request_id := input.request_id, user_id := userId,
          action_type := updateActionFor input.new_status,
          description := "Status updated",
          notes := notesOrNull input.notes,
          previous_status := some req.status,
          new_status := some input.new_status, created_at := now }
      (db2, Except.ok (upd req))

/-- The role switch of `createDisposition` step 5: which `DISPOSISI_TO_*`
status the first assignee's role maps to; `none` is the `default` branch that
throws. -/
def dispositionStatusFor (role : UserRole) : Option RequestStatus :=
  match role with
  | UserRole.WD1 => some RequestStatus.DISPOSISI_TO_WD1
  | UserRole.WD2 => some RequestStatus.DISPOSISI_TO_WD2
  | UserRole.WD3 => some RequestStatus.DISPOSISI_TO_WD3
  | UserRole.KABAG_TU => some RequestStatus.DISPOSISI_TO_KABAG_TU
  | UserRole.KAUR_AKADEMIK => some RequestStatus.DISPOSISI_TO_KAUR_AKADEMIK
  | UserRole.KAUR_KEMAHASISWAAN => some RequestStatus.DISPOSISI_TO_KAUR_KEMAHASISWAAN
  | UserRole.KAUR_KEUANGAN => some RequestStatus.DISPOSISI_TO_KAUR_KEUANGAN
  | _ => none

/-- Step 3 of `createDisposition`: validate each assigned user exists, in
input order (the message in the source interpolates the offending id; the
constant part is kept). -/
def validateAssignedUsers (db : DB) : List AssignmentInput → Except String Unit
  | [] => Except.ok ()
  | a :: rest =>
      match findUser db a.user_id with
      | none => Except.error "Assigned user not found"
      | some _ => validateAssignedUsers db rest

/-- Step 4 of `createDisposition`: the batch insert, one row per input entry
in input order, with ascending fresh serial ids. -/
def mkAssignments (rid dekanUserId : Nat) (instructions : String) (now : Nat) :
    Nat → List AssignmentInput → List DispositionAssignment
  | _, [] => []
  | nextId, a :: rest =>
      { id := nextId, letter_request_id := rid,
        assigned_to_user_id := a.user_id, assigned_by_user_id := dekanUserId,
        instructions := instructions, order_sequence := a.order_sequence,
        is_completed := false, completed_at := none, notes := none,
        created_at := now } ::
      mkAssignments rid dekanUserId instructions now (nextId + 1) rest

/-- Embedding of `createDisposition`. The read of `assignedUserIds[0]` at the
start of step 3 is unguarded in the source: on an empty assignments array that
line binds `undefined` into the query (and the later `.values([])` batch
insert and `input.assignments[0].user_id` read would fail too), so the call
throws before any row is written; the embedding fails at that first read.
Note the role-mapping throw of step 5 happens after the step-4 insert, so on
an unmapped first role the inserted assignment rows survive the failure. -/
def createDisposition (db : DB) (input : CreateDispositionInput) (dekanUserId : Nat)
    (now : Nat) : DB × Except String (List DispositionAssignment) :=
  -- 1. validate that the user is a Dekan
  match findUser db dekanUserId with
  | none => (db, Except.error "Only Dekan can create disposition assignments")
  | some dekanUser =>
    if dekanUser.role ≠ UserRole.DEKAN then
      (db, Except.error "Only Dekan can create disposition assignments")
    else
      -- 2. validate the letter request exists and is in the correct status
      match findRequest db input.request_id with
      | none => (db, Except.error "Letter request not found")
      | some letterRequest =>
        if letterRequest.status ≠ RequestStatus.FORWARDED_TO_DEKAN then
          (db, Except.error
            "Letter request must be in FORWARDED_TO_DEKAN status to create disposition")
        else
          -- 3. the unguarded `assignedUserIds[0]` read, then the per-user loop
          match input.assignments.head? with
          | none => (db, Except.error "Empty assignments array")
          | some firstAssignment =>
            match validateAssignedUsers db input.assignments with
            | Except.error e => (db, Except.error e)
            | Except.ok _ =>
              -- 4. create the disposition assignment rows
              let rows := mkAssignments input.request_id dekanUserId
                input.instructions now (freshAssignmentId db) input.assignments
              let db1 := addAssignments db rows
              -- 5. first assigned user determines the new status and handler
              match findUser db1 firstAssignment.user_id with
              | none => (db1, Except.error "Assigned user not found")
              | some firstUser =>
                match dispositionStatusFor firstUser.role with
                | none => (db1, Except.error "Invalid role for disposition assignment")
                | some newStatus =>
                  -- 6. update the letter request
                  let db2 := updateRequest db1 input.request_id (fun r =>
                    { r with dekan_instructions := some input.instructions,
                             status := newStatus,
                             current_handler_user_id := some firstAssignment.user_id,
                             updated_at := now })
                  -- 7. tracking log
                  let db3 := appendLog db2
                    { letter_request_id := input.request_id, user_id := dekanUserId,
                      action_type := ActionType.DISPOSISI_ASSIGNED,
                      description := "Disposition assignments created by Dekan",
                      notes := some input.instructions,
                      previous_status := some RequestStatus.FORWARDED_TO_DEKAN,
                      new_status := some newStatus, created_at := now }
                  (db3, Except.ok rows)

/-- The `orderBy(asc(order_sequence)).limit(1)` element of a candidate list:
the entry with the minimal `order_sequence` (on a tie, which SQL leaves
unordered, the earlier-listed row). -/
def minByOrderSequence : List DispositionAssignment → Option DispositionAssignment
  | [] => none
  | a :: rest =>
      match minByOrderSequence rest with
      | none => some a
      | some b => if b.order_sequence < a.order_sequence then some b else some a

/-- The step-3 query of `processDisposition`'s normal flow: the un-completed
assignment of the same request with the smallest `order_sequence` strictly
greater than the current one. -/
def nextAssignmentAfter (db : DB) (rid : Nat) (cur : Int) : Option DispositionAssignment :=
  minByOrderSequence (db.disposition_assignments.filter (fun a =>
    a.letter_request_id == rid && decide (cur < a.order_sequence) &&
      a.is_completed == false))

/-- The branch selection of `processDisposition` (new status, next handler):
`nextHandlerId` starts as null, and the fallback lookups leave status and
handler untouched when the looked-up role is unstaffed. -/
def pdBranch (db : DB) (input : ProcessDispositionInput)
    (currentRequest : LetterRequest) (currentAssignment : DispositionAssignment) :
    RequestStatus × Option Nat :=
  if input.escalate then
    match firstUserWithRole db UserRole.ADMIN with
    | some adminUser => (RequestStatus.ESCALATED, some adminUser.id)
    | none => (currentRequest.status, none)
  else if input.flag_for_coordination then
    match firstUserWithRole db UserRole.DEKAN with
    | some dekanUser => (RequestStatus.FORWARDED_TO_DEKAN, some dekanUser.id)
    | none => (currentRequest.status, none)
  else
    match nextAssignmentAfter db currentAssignment.letter_request_id
        currentAssignment.order_sequence with
    | some nextA => (currentRequest.status, some nextA.assigned_to_user_id)
    | none =>
      match firstUserWithRole db UserRole.DEKAN with
      | some dekanUser => (RequestStatus.TTD_READY, some dekanUser.id)
      | none => (RequestStatus.TTD_READY, none)

/-- Embedding of `processDisposition`. -/
def processDisposition (db : DB) (input : ProcessDispositionInput) (userId : Nat)
    (now : Nat) : DB × Except String DispositionAssignment :=
  -- 1. the assignment must exist, be assigned to the user and be un-completed
  match db.disposition_assignments.find? (fun a =>
      a.id == input.assignment_id && a.assigned_to_user_id == userId &&
        a.is_completed == false) with
  | none => (db, Except.error "Assignment not found or not assigned to user or already completed")
  | some currentAssignment =>
    let requestId := currentAssignment.letter_request_id
    match findRequest db requestId with
    | none => (db, Except.error "Letter request not found")
    | some currentRequest =>
      let newStatus := (pdBranch db input currentRequest currentAssignment).1
      let nextHandlerId := (pdBranch db input currentRequest currentAssignment).2
      -- 2. mark the assignment completed
      let complete : DispositionAssignment → DispositionAssignment := fun a =>
        { a with is_completed := true, completed_at := some now,
                 notes := notesOrNull input.notes }
      let db1 := updateAssignment db input.assignment_id complete
      -- update the letter request status and handler
      let db2 := updateRequest db1 requestId (fun r =>
        { r with status := newStatus, current_handler_user_id := nextHandlerId,
                 updated_at := now })
      -- tracking log whose action and description vary by branch
      let actionType :=
        if input.escalate then ActionType.ESCALATED else ActionType.PROCESSED
      let description :=
        if input.escalate then "Request escalated to admin"
        else if input.flag_for_coordination then "Request flagged for dean coordination"
        else if newStatus = RequestStatus.TTD_READY then
          "All disposition assignments completed, ready for signing"
        else "Disposition assignment completed"
      let db3 := appendLog db2
        { letter_request_id := requestId, user_id := userId,
          action_type := actionType, description := description,
          notes := notesOrNull input.notes,
          previous_status := some currentRequest.status,
          new_status := some newStatus, created_at := now }
      (db3, Except.ok (complete currentAssignment))

/-- The `validStatuses` list of `uploadFinalLetter` step 3. -/
def uploadValidStatuses : List RequestStatus :=
  [ RequestStatus.PROCESSED_BY_KAUR_AKADEMIK,
    RequestStatus.PROCESSED_BY_KAUR_KEMAHASISWAAN,
    RequestStatus.PROCESSED_BY_KAUR_KEUANGAN,
    RequestStatus.PROCESSED_BY_WD1,
    RequestStatus.PROCESSED_BY_WD2,
    RequestStatus.PROCESSED_BY_WD3,
    RequestStatus.PROCESSED_BY_KABAG_TU ]

/-- Embedding of `uploadFinalLetter`. -/
def uploadFinalLetter (db : DB) (input : UploadFinalLetterInput) (userId : Nat)
    (now : Nat) : DB × Except String LetterRequest :=
  match findRequest db input.request_id with
  | none => (db, Except.error "Letter request not found")
  | some request =>
    if request.current_handler_user_id ≠ some userId then
      (db, Except.error "User is not authorized to upload final letter for this request")
    else if request.status ∉ uploadValidStatuses then
      (db, Except.error "Cannot upload final letter for request in status")
    else
      match firstUserWithRole db UserRole.DEKAN with
      | none => (db, Except.error "No DEKAN user found to assign as next handler")
      | some dekanUser =>
        let upd : LetterRequest → LetterRequest := fun r =>
          { r with final_letter_url := some input.file_url,
                   status := RequestStatus.TTD_READY,
                   current_handler_user_id := some dekanUser.id,
                   updated_at := now }
        let db1 := updateRequest db input.request_id upd
        let db2 := appendLog db1
          { letter_request_id := input.request_id, user_id := userId,
            action_type := ActionType.DOCUMENT_UPLOADED,
            description := "Final letter document uploaded and ready for signature",
            notes := some ("Final letter uploaded: " ++ input.file_url),
            previous_status := some request.status,
            new_status := some RequestStatus.TTD_READY, created_at := now }
        (db2, Except.ok (upd request))

/-- Embedding of `signLetter` (the first, implemented definition in the file;
a placeholder declaration follows it). -/
def signLetter (db : DB) (input : SignLetterInput) (dekanUserId : Nat)
    (now : Nat) : DB × Except String LetterRequest :=
  -- 1. the user must exist with role DEKAN (a single conjunctive query)
  match db.users.find? (fun u => u.id == dekanUserId && u.role == UserRole.DEKAN) with
  | none => (db, Except.error "Only Dean (DEKAN) can sign letters")
  | some _ =>
    -- 2. the request must exist, be TTD_READY and have a truthy final_letter_url
    match findRequest db input.request_id with
    | none => (db, Except.error "Letter request not found")
    | some letterRequest =>
      if letterRequest.status ≠ RequestStatus.TTD_READY then
        (db, Except.error "Letter request is not ready for signing")
      else
        match letterRequest.final_letter_url with
        | none => (db, Except.error "Final letter document not found")
        | some url =>
          if url = "" then
            -- `!letterRequest.final_letter_url`: the empty string is falsy
            (db, Except.error "Final letter document not found")
          else
            -- 3. find a Staff Fakultas user (limit 1)
            match firstUserWithRole db UserRole.STAFF_FAKULTAS with
            | none => (db, Except.error "No Staff Fakultas available to handle signed letter")
            | some staffFakultas =>
              -- 4. status TTD_DONE, handler Staff Fakultas
              let upd : LetterRequest → LetterRequest := fun r =>
                { r with status := RequestStatus.TTD_DONE,
                         current_handler_user_id := some staffFakultas.id,
                         updated_at := now }
              let db1 := updateRequest db input.request_id upd
              -- 5. SIGNED log
              let db2 := appendLog db1
                { letter_request_id := input.request_id, user_id := dekanUserId,
                  action_type := ActionType.SIGNED,
                  description := "Letter digitally signed by Dean",
                  notes := some ("Digital signature applied using signature data: " ++
                    (input.signature_data.take 20) ++ "..."),
                  previous_status := some RequestStatus.TTD_READY,
                  new_status := some RequestStatus.TTD_DONE, created_at := now }
              -- 6. FORWARDED log
              let db3 := appendLog db2
                { letter_request_id := input.request_id, user_id := dekanUserId,
                  action_type := ActionType.FORWARDED,
                  description := "Signed letter forwarded to Staff Fakultas for return processing",
                  notes := some "Letter ready for return to prodi or delivery",
                  previous_status := some RequestStatus.TTD_DONE,
                  new_status := some RequestStatus.TTD_DONE, created_at := now }
              (db3, Except.ok (upd letterRequest))

/-! The listing handler `getRequests`. -/

structure GetRequestsFilter where
  status : Option RequestStatus
  priority : Option Priority
  student_nim : Option String
  created_by_user_id : Option Nat
  current_handler_user_id : Option Nat
  from_date : Option Nat
  to_date : Option Nat
deriving DecidableEq, Repr

/-- Stable insertion for a descending `created_at` sort (`orderBy(desc(...))`):
an element moves ahead only of strictly older rows. -/
def insertDesc (r : LetterRequest) : List LetterRequest → List LetterRequest
  | [] => [r]
  | x :: xs =>
      if r.created_at ≤ x.created_at then x :: insertDesc r xs
      else r :: x :: xs

/-- The final `ORDER BY created_at DESC` of `getRequests`, as a stable
insertion sort. -/
def sortByCreatedAtDesc : List LetterRequest → List LetterRequest
  | [] => []
  | x :: xs => insertDesc x (sortByCreatedAtDesc xs)

/-- The inner joins of the base query: a request row survives only when its
student and its creating user both resolve. -/
def joinedBase (db : DB) : List LetterRequest :=
  db.letter_requests.filter (fun r =>
    db.students.any (fun s => s.id == r.student_id) &&
      db.users.any (fun u => u.id == r.created_by_user_id))

/-- The joined student's prodi for a request row. -/
def studentProdiOf (db : DB) (r : LetterRequest) : Option String :=
  (db.students.find? (fun s => s.id == r.student_id)).map (fun s => s.prodi)

/-- The joined student's NIM for a request row. -/
def studentNimOf (db : DB) (r : LetterRequest) : Option String :=
  (db.students.find? (fun s => s.id == r.student_id)).map (fun s => s.nim)

/-- The role-based condition pushed by the `switch (user.role)` of
`getRequests`. The prodi scope for STAFF_PRODI and KAPRODI is guarded by
`if (user.prodi)`: with a null (or empty, both falsy) prodi no condition is
pushed at all. Every enum role is listed, so the `default` branch of the
source switch is unreachable. -/
def roleScopePred (db : DB) (user : User) (userId : Nat) (r : LetterRequest) : Bool :=
  match user.role with
  | UserRole.STUDENT => r.created_by_user_id == userId
  | UserRole.STAFF_PRODI | UserRole.KAPRODI =>
      match user.prodi with
      | some p => if p = "" then true else studentProdiOf db r == some p
      | none => true
  | UserRole.DEKAN | UserRole.STAFF_FAKULTAS | UserRole.WD1 | UserRole.WD2
  | UserRole.WD3 | UserRole.KABAG_TU | UserRole.KAUR_AKADEMIK
  | UserRole.KAUR_KEMAHASISWAAN | UserRole.KAUR_KEUANGAN =>
      r.current_handler_user_id == some userId || r.created_by_user_id == userId
  | UserRole.ADMIN => true

/-- The explicit filter conditions of `getRequests`, ANDed together. Each is
guarded by a JS truthiness test, so a zero id or an empty NIM string is
skipped like an absent field. -/
def filterPred (db : DB) (f : GetRequestsFilter) (r : LetterRequest) : Bool :=
  (match f.status with | none => true | some s => r.status == s) &&
  (match f.priority with | none => true | some p => r.priority == p) &&
  (match f.student_nim with
   | none => true
   | some nim => if nim = "" then true else studentNimOf db r == some nim) &&
  (match f.created_by_user_id with
   | none => true
   | some uid => if uid = 0 then true else r.created_by_user_id == uid) &&
  (match f.current_handler_user_id with
   | none => true
   | some uid => if uid = 0 then true else r.current_handler_user_id == some uid) &&
  (match f.from_date with | none => true | some d => decide (d ≤ r.created_at)) &&
  (match f.to_date with | none => true | some d => decide (r.created_at ≤ d))

/-- Embedding of `getRequests`: the joined base rows, the role scope when an
acting user id is supplied (an id that matches no user pushes the
unsatisfiable `eq(id, -1)`, modelled as the constantly false condition),
the explicit filters, and the final `created_at` descending order. -/
def getRequests (db : DB) (filter : Option GetRequestsFilter)
    (userId : Option Nat) : List LetterRequest :=
  let base := joinedBase db
  let scopedRows :=
    match userId with
    | none => base
    | some uid =>
      match findUser db uid with
      | none => base.filter (fun _ => false)
      | some user => base.filter (roleScopePred db user uid)
  let filtered :=
    match filter with
    | none => scopedRows
    | some f => scopedRows.filter (filterPred db f)
  sortByCreatedAtDesc filtered

/-! The audit-trail invariant and general lemmas about the embedding. -/

/-- The TrackingLog rows of one request, in insertion (creation-time) order. -/
def logsFor (db : DB) (rid : Nat) : List TrackingLog :=
  db.tracking_logs.filter (fun l => l.letter_request_id == rid)

/-- The audit-trail invariant of the spec for one request: the request exists,
at least one of its TrackingLog rows carries `new_status` equal to the
request's status, and its most recent TrackingLog row does. -/
def auditOk (db : DB) (rid : Nat) : Prop :=
  ∃ r log, findRequest db rid = some r ∧
    (logsFor db rid).getLast? = some log ∧
    log.new_status = some r.status ∧
    ∃ l, l ∈ logsFor db rid ∧ l.new_status = some r.status

/-! Claim theorems. Concrete example data used by witnesses and
counterexamples. -/

def exStudentTI : Student :=
  { id := 1, nim := "2024001", name := "Student One", prodi := "TI" }

def exKaprodi : User :=
  { id := 1, email := "kaprodi@f.ac", name := "Kaprodi TI",
    role := UserRole.KAPRODI, prodi := some "TI" }

def exDekan : User :=
  { id := 2, email := "dekan@f.ac", name := "Dekan", role := UserRole.DEKAN,
    prodi := none }

def exWd1 : User :=
  { id := 3, email := "wd1@f.ac", name := "Wakil Dekan Satu",
    role := UserRole.WD1, prodi := none }

def exKabag : User :=
  { id := 4, email := "kabag@f.ac", name := "Kabag TU",
    role := UserRole.KABAG_TU, prodi := none }

def exStaf : User :=
  { id := 5, email := "staf@f.ac", name := "Staf Fakultas",
    role := UserRole.STAFF_FAKULTAS, prodi := none }

def exAdmin : User :=
  { id := 6, email := "admin@f.ac", name := "Admin", role := UserRole.ADMIN,
    prodi := none }

def exStaffProdi : User :=
  { id := 7, email := "sp@f.ac", name := "Staff Prodi TI",
    role := UserRole.STAFF_PRODI, prodi := some "TI" }

def exDbC1 : DB :=
  { users := [exKaprodi], students := [exStudentTI], letter_requests := [],
    supporting_documents := [], tracking_logs := [],
    disposition_assignments := [] }

def exInpC1 : CreateLetterRequestInput :=
  { student_id := 1, letter_type := "SK Aktif", purpose := "beasiswa",
    priority := Priority.NORMAL, supporting_documents := none }

def exReqC1 : LetterRequest :=
  { id := 1, student_id := 1, created_by_user_id := 7,
    letter_type := "SK Aktif", purpose := "beasiswa",
    priority := Priority.NORMAL, status := RequestStatus.DRAFT,
    current_handler_user_id := some 1, dekan_instructions := none,
    final_letter_url := none, created_at := 5, updated_at := 5 }

def exReqC3 : LetterRequest :=
  { id := 1, student_id := 1, created_by_user_id := 7,
    letter_type := "SK Aktif", purpose := "beasiswa",
    priority := Priority.NORMAL, status := RequestStatus.DISPOSISI_TO_WD1,
    current_handler_user_id := some 3, dekan_instructions := some "tindak lanjut",
    final_letter_url := none, created_at := 1, updated_at := 1 }

def exAsgC3 : DispositionAssignment :=
  { id := 1, letter_request_id := 1, assigned_to_user_id := 3,
    assigned_by_user_id := 2, instructions := "tindak lanjut",
    order_sequence := 1, is_completed := false, completed_at := none,
    notes := none, created_at := 1 }

/-- A store with no ADMIN user at all. -/
def exDbC3 : DB :=
  { users := [exDekan, exWd1], students := [exStudentTI],
    letter_requests := [exReqC3], supporting_documents := [],
    tracking_logs := [], disposition_assignments := [exAsgC3] }

/-- The same store with an ADMIN user present. -/
def exDbC3b : DB :=
  { users := [exDekan, exWd1, exAdmin], students := [exStudentTI],
    letter_requests := [exReqC3], supporting_documents := [],
    tracking_logs := [], disposition_assignments := [exAsgC3] }

def exInpC3 : ProcessDispositionInput :=
  { assignment_id := 1, notes := none, escalate := true,
    flag_for_coordination := false }

/-- Formalisation of the spec's handler-role/status consistency relation
(data-model invariant, with its examples): each `DISPOSISI_TO_<role>` status
demands a handler of that role, `TTD_READY` demands the dean, `ESCALATED`
the admin; other statuses are not constrained by the claim. -/
def statusRequiredRole : RequestStatus → Option UserRole
  | RequestStatus.DISPOSISI_TO_WD1 => some UserRole.WD1
  | RequestStatus.DISPOSISI_TO_WD2 => some UserRole.WD2
  | RequestStatus.DISPOSISI_TO_WD3 => some UserRole.WD3
  | RequestStatus.DISPOSISI_TO_KABAG_TU => some UserRole.KABAG_TU
  | RequestStatus.DISPOSISI_TO_KAUR_AKADEMIK => some UserRole.KAUR_AKADEMIK
  | RequestStatus.DISPOSISI_TO_KAUR_KEMAHASISWAAN => some UserRole.KAUR_KEMAHASISWAAN
  | RequestStatus.DISPOSISI_TO_KAUR_KEUANGAN => some UserRole.KAUR_KEUANGAN
  | RequestStatus.TTD_READY => some UserRole.DEKAN
  | RequestStatus.ESCALATED => some UserRole.ADMIN
  | _ => none

/-- The handler's role is consistent with the request status, in the sense of
the spec's invariant. -/
def handlerRoleConsistent (st : RequestStatus) (role : UserRole) : Prop :=
  match statusRequiredRole st with
  | some r => role = r
  | none => True

def exReqC4 : LetterRequest :=
  { id := 1, student_id := 1, created_by_user_id := 7,
    letter_type := "SK Aktif", purpose := "beasiswa",
    priority := Priority.NORMAL, status := RequestStatus.DISPOSISI_TO_WD1,
    current_handler_user_id := some 3, dekan_instructions := some "proses",
    final_letter_url := none, created_at := 1, updated_at := 1 }

def exAsgC4a : DispositionAssignment :=
  { id := 1, letter_request_id := 1, assigned_to_user_id := 3,
    assigned_by_user_id := 2, instructions := "proses", order_sequence := 1,
    is_completed := false, completed_at := none, notes := none,
    created_at := 1 }

def exAsgC4b : DispositionAssignment :=
  { id := 2, letter_request_id := 1, assigned_to_user_id := 4,
    assigned_by_user_id := 2, instructions := "proses", order_sequence := 2,
    is_completed := false, completed_at := none, notes := none,
    created_at := 1 }

/-- A request mid-disposition: WD1 (user 3) holds sequence 1, KABAG_TU
(user 4) holds sequence 2. -/
def exDbC4 : DB :=
  { users := [exDekan, exWd1, exKabag], students := [exStudentTI],
    letter_requests := [exReqC4], supporting_documents := [],
    tracking_logs := [], disposition_assignments := [exAsgC4a, exAsgC4b] }

def exInpC4 : ProcessDispositionInput :=
  { assignment_id := 1, notes := none, escalate := false,
    flag_for_coordination := false }

/-- The shared disposition scenario store: a `FORWARDED_TO_DEKAN` request
with the dean as handler. -/
def exReqDisp : LetterRequest :=
  { id := 1, student_id := 1, created_by_user_id := 7,
    letter_type := "SK Aktif", purpose := "beasiswa",
    priority := Priority.NORMAL, status := RequestStatus.FORWARDED_TO_DEKAN,
    current_handler_user_id := some 2, dekan_instructions := none,
    final_letter_url := none, created_at := 1, updated_at := 1 }

def exDbDisp : DB :=
  { users := [exDekan, exWd1, exKabag], students := [exStudentTI],
    letter_requests := [exReqDisp], supporting_documents := [],
    tracking_logs := [], disposition_assignments := [] }

/-- Sorted disposition input: WD1 (user 3) sequence 1 first, KABAG_TU
(user 4) sequence 2 second. -/
def exInpC4w : CreateDispositionInput :=
  { request_id := 1, instructions := "disposisi",
    assignments := [{ user_id := 3, order_sequence := 1 },
                    { user_id := 4, order_sequence := 2 }] }

/-- Unsorted disposition input: the KABAG_TU entry (sequence 2) is supplied
first in the array, the WD1 entry (sequence 1) second. -/
def exInpC5x : CreateDispositionInput :=
  { request_id := 1, instructions := "disposisi",
    assignments := [{ user_id := 4, order_sequence := 2 },
                    { user_id := 3, order_sequence := 1 }] }

def exReqC2 : LetterRequest :=
  { id := 1, student_id := 1, created_by_user_id := 1,
    letter_type := "SK Aktif", purpose := "beasiswa",
    priority := Priority.NORMAL, status := RequestStatus.DRAFT,
    current_handler_user_id := some 1, dekan_instructions := none,
    final_letter_url := none, created_at := 1, updated_at := 1 }

def exDbC2 : DB :=
  { users := [exKaprodi, exStaffProdi], students := [exStudentTI],
    letter_requests := [exReqC2], supporting_documents := [],
    tracking_logs := [], disposition_assignments := [] }

def exInpC2 : UpdateRequestStatusInput :=
  { request_id := 1, new_status := RequestStatus.APPROVED_KAPRODI,
    notes := some "ok", next_handler_user_id := none }

def exReqC6 : LetterRequest :=
  { id := 1, student_id := 1, created_by_user_id := 7,
    letter_type := "SK Aktif", purpose := "beasiswa",
    priority := Priority.NORMAL, status := RequestStatus.TTD_READY,
    current_handler_user_id := some 2, dekan_instructions := some "proses",
    final_letter_url := some "https://files/letter.pdf", created_at := 1,
    updated_at := 1 }

def exDbC6 : DB :=
  { users := [exDekan, exStaf], students := [exStudentTI],
    letter_requests := [exReqC6], supporting_documents := [],
    tracking_logs := [], disposition_assignments := [] }

def exInpC6 : SignLetterInput :=
  { request_id := 1, signature_data := "sig-abc" }

def exInpC7 : CreateDispositionInput :=
  { request_id := 1, instructions := "disposisi",
    assignments := [{ user_id := 3, order_sequence := 1 }] }

def exAsgC8done : DispositionAssignment :=
  { exAsgC4a with is_completed := true, completed_at := some 9, notes := none }

def exKaprodiNull : User :=
  { id := 9, email := "kn@f.ac", name := "Kaprodi Tanpa Prodi",
    role := UserRole.KAPRODI, prodi := none }

def exReqC9 : LetterRequest :=
  { id := 1, student_id := 1, created_by_user_id := 7,
    letter_type := "SK Aktif", purpose := "beasiswa",
    priority := Priority.NORMAL, status := RequestStatus.DRAFT,
    current_handler_user_id := some 1, dekan_instructions := none,
    final_letter_url := none, created_at := 2, updated_at := 2 }

def exDbC9 : DB :=
  { users := [exKaprodiNull, exStaffProdi], students := [exStudentTI],
    letter_requests := [exReqC9], supporting_documents := [],
    tracking_logs := [], disposition_assignments := [] }

def exInpC10 : CreateDispositionInput :=
  { request_id := 1, instructions := "disposisi", assignments := [] }

/-! Theorems. -/

theorem find?_map_pres {α : Type} (f : α → α) (p : α → Bool)
    (h : ∀ y, p (f y) = p y) :
    ∀ xs : List α, (xs.map f).find? p = (xs.find? p).map f := by
  intro xs
  induction xs with
  | nil => rfl
  | cons a t ih =>
      by_cases hp : p a
      · simp [List.find?, h a, hp]
      · simp only [List.map_cons, List.find?]
        rw [h a]
        simp only [Bool.not_eq_true] at hp
        rw [hp]
        exact ih

/-- Updating one request row by id leaves `findRequest` pointing at the
updated row, provided the update keeps the id. -/
theorem findRequest_updateRequest (db : DB) (rid : Nat)
    (f : LetterRequest → LetterRequest) (hf : ∀ r, (f r).id = r.id) :
    findRequest (updateRequest db rid f) rid = (findRequest db rid).map f := by
  unfold findRequest updateRequest
  simp only
  rw [find?_map_pres]
  · cases hfind : db.letter_requests.find? (fun r => r.id == rid) with
    | none => rfl
    | some r0 =>
        have hp := List.find?_some hfind
        have hp2 : r0.id = rid := by simpa using hp
        simp [hp2]
  · intro y
    by_cases hy : y.id == rid
    · simp [hy, hf y]
    · simp only [Bool.not_eq_true] at hy
      simp [hy]

theorem logsFor_appendLog (db : DB) (l : TrackingLog) (rid : Nat)
    (h : l.letter_request_id = rid) :
    logsFor (appendLog db l) rid = logsFor db rid ++ [l] := by
  unfold logsFor appendLog
  simp [List.filter_append, h]

theorem letter_requests_appendLog (db : DB) (l : TrackingLog) :
    (appendLog db l).letter_requests = db.letter_requests := rfl

theorem letter_requests_updateAssignment (db : DB) (aid : Nat)
    (f : DispositionAssignment → DispositionAssignment) :
    (updateAssignment db aid f).letter_requests = db.letter_requests := rfl

theorem tracking_logs_updateRequest (db : DB) (rid : Nat)
    (f : LetterRequest → LetterRequest) :
    (updateRequest db rid f).tracking_logs = db.tracking_logs := rfl

theorem tracking_logs_updateAssignment (db : DB) (aid : Nat)
    (f : DispositionAssignment → DispositionAssignment) :
    (updateAssignment db aid f).tracking_logs = db.tracking_logs := rfl

theorem insertDocs_letter_requests (rid uid now : Nat) :
    ∀ (ds : List SupportingDocInput) (db : DB),
      (insertDocs rid uid now db ds).letter_requests = db.letter_requests := by
  intro ds
  induction ds with
  | nil => intro db; rfl
  | cons d t ih => intro db; exact ih _

theorem insertDocs_tracking_logs (rid uid now : Nat) :
    ∀ (ds : List SupportingDocInput) (db : DB),
      (insertDocs rid uid now db ds).tracking_logs = db.tracking_logs := by
  intro ds
  induction ds with
  | nil => intro db; rfl
  | cons d t ih => intro db; exact ih _

theorem le_foldr_max (x : Nat) : ∀ xs : List Nat, x ∈ xs → x ≤ xs.foldr max 0 := by
  intro xs
  induction xs with
  | nil => intro h; cases h
  | cons a t ih =>
      intro h
      rcases List.mem_cons.mp h with h | h
      · subst h; exact Nat.le_max_left _ _
      · exact Nat.le_trans (ih h) (Nat.le_max_right _ _)

/-- No existing request row carries the fresh serial id. -/
theorem findRequest_fresh_none (db : DB) :
    db.letter_requests.find? (fun r => r.id == freshRequestId db) = none := by
  rw [List.find?_eq_none]
  intro r hr
  have hle : r.id ≤ (db.letter_requests.map (fun q => q.id)).foldr max 0 :=
    le_foldr_max _ _ (List.mem_map_of_mem _ hr)
  simp only [beq_iff_eq, freshRequestId]
  omega

theorem maybeInsertDocs_letter_requests (rid uid now : Nat) (db : DB)
    (o : Option (List SupportingDocInput)) :
    (maybeInsertDocs rid uid now db o).letter_requests = db.letter_requests := by
  cases o with
  | none => rfl
  | some docs => exact insertDocs_letter_requests _ _ _ _ _

theorem maybeInsertDocs_tracking_logs (rid uid now : Nat) (db : DB)
    (o : Option (List SupportingDocInput)) :
    (maybeInsertDocs rid uid now db o).tracking_logs = db.tracking_logs := by
  cases o with
  | none => rfl
  | some docs => exact insertDocs_tracking_logs _ _ _ _ _

/-- Appending one log row whose `new_status` matches the status of the (still
present) request establishes the audit invariant. -/
theorem auditOk_appendLog_after (dbMid : DB) (rid : Nat) (r : LetterRequest)
    (l : TrackingLog) (hfind : findRequest dbMid rid = some r)
    (hl : l.letter_request_id = rid) (hs : l.new_status = some r.status) :
    auditOk (appendLog dbMid l) rid := by
  refine ⟨r, l, ?_, ?_, hs, l, ?_, hs⟩
  · unfold findRequest
    rw [letter_requests_appendLog]
    exact hfind
  · rw [logsFor_appendLog _ _ _ hl]
    exact List.getLast?_concat _
  · rw [logsFor_appendLog _ _ _ hl]
    exact List.mem_append_right _ (List.mem_singleton_self _)

theorem auditOk_createLetterRequest (db : DB) (input : CreateLetterRequestInput)
    (userId now : Nat) (db2 : DB) (req : LetterRequest)
    (h : createLetterRequest db input userId now = (db2, Except.ok req)) :
    auditOk db2 req.id := by
  unfold createLetterRequest at h
  split at h
  · simp at h
  · split at h
    · simp at h
    · simp only [Prod.mk.injEq, Except.ok.injEq] at h
      obtain ⟨hdb, hreq⟩ := h
      subst hdb
      refine auditOk_appendLog_after _ _ req _ ?_ ?_ ?_
      · rw [← hreq]
        unfold findRequest
        rw [maybeInsertDocs_letter_requests]
        show ((db.letter_requests ++ [_]).find? _) = _
        rw [List.find?_append, findRequest_fresh_none]
        simp
      · rw [← hreq]
      · rw [← hreq]

/-- An id-preserving request update followed by one log row whose `new_status`
is the updated status establishes the audit invariant. -/
theorem auditOk_update_append (db : DB) (rid : Nat) (req0 : LetterRequest)
    (f : LetterRequest → LetterRequest) (l : TrackingLog)
    (hfind : findRequest db rid = some req0)
    (hid : ∀ r, (f r).id = r.id)
    (hl : l.letter_request_id = rid)
    (hs : l.new_status = some (f req0).status) :
    auditOk (appendLog (updateRequest db rid f) l) rid := by
  refine auditOk_appendLog_after _ _ (f req0) _ ?_ hl hs
  rw [findRequest_updateRequest _ _ _ hid, hfind]
  rfl

/-- The two-log variant used by `signLetter`. -/
theorem auditOk_update_append_append (db : DB) (rid : Nat) (req0 : LetterRequest)
    (f : LetterRequest → LetterRequest) (l1 l2 : TrackingLog)
    (hfind : findRequest db rid = some req0)
    (hid : ∀ r, (f r).id = r.id)
    (hl2 : l2.letter_request_id = rid)
    (hs2 : l2.new_status = some (f req0).status) :
    auditOk (appendLog (appendLog (updateRequest db rid f) l1) l2) rid := by
  refine auditOk_appendLog_after _ _ (f req0) _ ?_ hl2 hs2
  have hsame : findRequest (appendLog (updateRequest db rid f) l1) rid
      = findRequest (updateRequest db rid f) rid := rfl
  rw [hsame, findRequest_updateRequest _ _ _ hid, hfind]
  rfl

theorem auditOk_updateRequestStatus (db : DB) (input : UpdateRequestStatusInput)
    (userId now : Nat) (db2 : DB) (req : LetterRequest)
    (h : updateRequestStatus db input userId now = (db2, Except.ok req)) :
    auditOk db2 input.request_id := by
  unfold updateRequestStatus at h
  split at h
  · simp at h
  · split at h
    · simp at h
    · rename_i req0 heq hperm
      simp only [Prod.mk.injEq, Except.ok.injEq] at h
      obtain ⟨hdb, hreq⟩ := h
      subst hdb
      exact auditOk_update_append _ _ req0 _ _ heq (fun r => rfl) rfl rfl

theorem auditOk_createDisposition (db : DB) (input : CreateDispositionInput)
    (dekanUserId now : Nat) (db2 : DB) (rows : List DispositionAssignment)
    (h : createDisposition db input dekanUserId now = (db2, Except.ok rows)) :
    auditOk db2 input.request_id := by
  unfold createDisposition at h
  split at h
  · simp at h
  · split at h
    · simp at h
    · split at h
      · simp at h
      · split at h
        · simp at h
        · split at h
          · simp at h
          · split at h
            · simp at h
            · dsimp only at h
              split at h
              · simp at h
              · split at h
                · simp at h
                · simp only [Prod.mk.injEq, Except.ok.injEq] at h
                  obtain ⟨hdb, hrows⟩ := h
                  subst hdb
                  have hex : ∃ r, findRequest db input.request_id = some r :=
                    ⟨_, by assumption⟩
                  obtain ⟨req0, hreq0⟩ := hex
                  exact auditOk_update_append _ _ req0 _ _ hreq0 (fun r => rfl) rfl rfl

theorem auditOk_processDisposition (db : DB) (input : ProcessDispositionInput)
    (userId now : Nat) (db2 : DB) (a : DispositionAssignment)
    (h : processDisposition db input userId now = (db2, Except.ok a)) :
    auditOk db2 a.letter_request_id := by
  unfold processDisposition at h
  split at h
  · simp at h
  · rename_i b hb
    dsimp only at h
    rcases hfr : findRequest db b.letter_request_id with _ | req0
    · rw [hfr] at h
      simp at h
    · rw [hfr] at h
      dsimp only at h
      repeat' split at h
      all_goals
        simp only [Prod.mk.injEq, Except.ok.injEq] at h
      all_goals
        obtain ⟨hdb, ha⟩ := h
      all_goals
        subst hdb
      all_goals
        subst ha
      all_goals
        exact auditOk_update_append _ _ req0 _ _ hfr (fun r => rfl) rfl rfl

theorem auditOk_uploadFinalLetter (db : DB) (input : UploadFinalLetterInput)
    (userId now : Nat) (db2 : DB) (req : LetterRequest)
    (h : uploadFinalLetter db input userId now = (db2, Except.ok req)) :
    auditOk db2 input.request_id := by
  unfold uploadFinalLetter at h
  split at h
  · simp at h
  · split at h
    · simp at h
    · split at h
      · simp at h
      · split at h
        · simp at h
        · simp only [Prod.mk.injEq, Except.ok.injEq] at h
          obtain ⟨hdb, hreq⟩ := h
          subst hdb
          have hex : ∃ r, findRequest db input.request_id = some r :=
            ⟨_, by assumption⟩
          obtain ⟨req0, hreq0⟩ := hex
          exact auditOk_update_append _ _ req0 _ _ hreq0 (fun r => rfl) rfl rfl

theorem auditOk_signLetter (db : DB) (input : SignLetterInput)
    (dekanUserId now : Nat) (db2 : DB) (req : LetterRequest)
    (h : signLetter db input dekanUserId now = (db2, Except.ok req)) :
    auditOk db2 input.request_id := by
  unfold signLetter at h
  split at h
  · simp at h
  · split at h
    · simp at h
    · split at h
      · simp at h
      · split at h
        · simp at h
        · split at h
          · simp at h
          · split at h
            · simp at h
            · simp only [Prod.mk.injEq, Except.ok.injEq] at h
              obtain ⟨hdb, hreq⟩ := h
              subst hdb
              have hex : ∃ r, findRequest db input.request_id = some r :=
                ⟨_, by assumption⟩
              obtain ⟨req0, hreq0⟩ := hex
              exact auditOk_update_append_append _ _ req0 _ _ _ hreq0
                (fun r => rfl) rfl rfl

/-- C1: every status-changing operation (createLetterRequest,
updateRequestStatus, createDisposition, processDisposition,
uploadFinalLetter, signLetter), when it completes successfully, leaves the
mutated request with at least one TrackingLog row whose `new_status` equals
the request's post-mutation status, and the most recent TrackingLog row of
that request carries `new_status` equal to the request's current status
(`auditOk`). -/
theorem C1_audit_trail_invariant :
    (∀ (db : DB) (input : CreateLetterRequestInput) (userId now : Nat)
      (db2 : DB) (req : LetterRequest),
      createLetterRequest db input userId now = (db2, Except.ok req) →
      auditOk db2 req.id) ∧
    (∀ (db : DB) (input : UpdateRequestStatusInput) (userId now : Nat)
      (db2 : DB) (req : LetterRequest),
      updateRequestStatus db input userId now = (db2, Except.ok req) →
      auditOk db2 input.request_id) ∧
    (∀ (db : DB) (input : CreateDispositionInput) (dekanUserId now : Nat)
      (db2 : DB) (rows : List DispositionAssignment),
      createDisposition db input dekanUserId now = (db2, Except.ok rows) →
      auditOk db2 input.request_id) ∧
    (∀ (db : DB) (input : ProcessDispositionInput) (userId now : Nat)
      (db2 : DB) (a : DispositionAssignment),
      processDisposition db input userId now = (db2, Except.ok a) →
      auditOk db2 a.letter_request_id) ∧
    (∀ (db : DB) (input : UploadFinalLetterInput) (userId now : Nat)
      (db2 : DB) (req : LetterRequest),
      uploadFinalLetter db input userId now = (db2, Except.ok req) →
      auditOk db2 input.request_id) ∧
    (∀ (db : DB) (input : SignLetterInput) (dekanUserId now : Nat)
      (db2 : DB) (req : LetterRequest),
      signLetter db input dekanUserId now = (db2, Except.ok req) →
      auditOk db2 input.request_id) :=
  ⟨auditOk_createLetterRequest, auditOk_updateRequestStatus,
   auditOk_createDisposition, auditOk_processDisposition,
   auditOk_uploadFinalLetter, auditOk_signLetter⟩

/-- C1 witness: a successful `createLetterRequest` on a concrete store
satisfies the audit invariant. -/
theorem C1_audit_trail_invariant_witness :
    auditOk (createLetterRequest exDbC1 exInpC1 7 5).1 exReqC1.id :=
  C1_audit_trail_invariant.1 exDbC1 exInpC1 7 5
    (createLetterRequest exDbC1 exInpC1 7 5).1 exReqC1 rfl

theorem findRequest_updateAssignment (db : DB) (aid : Nat)
    (g : DispositionAssignment → DispositionAssignment) (rid : Nat) :
    findRequest (updateAssignment db aid g) rid = findRequest db rid := rfl

theorem findRequest_appendLog (db : DB) (l : TrackingLog) (rid : Nat) :
    findRequest (appendLog db l) rid = findRequest db rid := rfl

/-- When the assignment query matches and the request exists,
`processDisposition` succeeds: it completes the matched assignment, applies
the `pdBranch` outcome to the request, and leaves the assignment table with
the matched row (and any row sharing its id) completed. -/
theorem processDisposition_found (db : DB) (input : ProcessDispositionInput)
    (userId now : Nat) (cur : DispositionAssignment) (req : LetterRequest)
    (hfind : db.disposition_assignments.find? (fun a =>
        a.id == input.assignment_id && a.assigned_to_user_id == userId &&
          a.is_completed == false) = some cur)
    (hreq : findRequest db cur.letter_request_id = some req) :
    ∃ db2, processDisposition db input userId now =
        (db2, Except.ok { cur with
                            is_completed := true
                            completed_at := some now
                            notes := notesOrNull input.notes }) ∧
      findRequest db2 cur.letter_request_id =
        some { req with
                 status := (pdBranch db input req cur).1
                 current_handler_user_id := (pdBranch db input req cur).2
                 updated_at := now } ∧
      db2.disposition_assignments =
        db.disposition_assignments.map (fun a =>
          if a.id == input.assignment_id then
            { a with
                is_completed := true
                completed_at := some now
                notes := notesOrNull input.notes }
          else a) := by
  unfold processDisposition
  rw [hfind]
  dsimp only
  rw [hreq]
  dsimp only
  refine ⟨_, rfl, ?_, rfl⟩
  rw [findRequest_appendLog, findRequest_updateRequest,
    findRequest_updateAssignment, hreq]
  · rfl
  · intro r
    rfl

theorem firstUserWithRole_role (db : DB) (role : UserRole) (u : User)
    (h : firstUserWithRole db role = some u) : u.role = role := by
  unfold firstUserWithRole usersWithRole at h
  have hm : u ∈ db.users.filter (fun v => v.role == role) := by
    cases hl : db.users.filter (fun v => v.role == role) with
    | nil => rw [hl] at h; cases h
    | cons a t =>
        rw [hl] at h
        cases h
        exact List.mem_cons_self _ _
  have hr := (List.mem_filter.mp hm).2
  simpa using hr

/-- C3 counterexample: with `escalate` set and no ADMIN user in the store,
`processDisposition` does not fail — it completes successfully, marks the
assignment completed, leaves the request's status unchanged and nulls out
`current_handler` (the claim asserts a fatal ConfigurationMissing error). -/
theorem C3_escalation_counterexample :
    firstUserWithRole exDbC3 UserRole.ADMIN = none ∧
    (processDisposition exDbC3 exInpC3 3 9).2 =
      Except.ok { exAsgC3 with
                    is_completed := true
                    completed_at := some 9
                    notes := none } ∧
    findRequest (processDisposition exDbC3 exInpC3 3 9).1 1 =
      some { exReqC3 with
               current_handler_user_id := none
               updated_at := 9 } :=
  ⟨rfl, rfl, rfl⟩

/-- C3 (amended): for an un-completed assignment of the acting user on an
existing request, `processDisposition` with `escalate` set moves the request
to `ESCALATED` with the first ADMIN user (by store order) as handler when an
ADMIN exists; when no ADMIN user exists the call still completes
successfully, leaving the request's status unchanged and its
`current_handler` null, rather than failing with a ConfigurationMissing
error. -/
theorem C3_escalation_routing (db : DB) (input : ProcessDispositionInput)
    (userId now : Nat) (cur : DispositionAssignment) (req : LetterRequest)
    (hesc : input.escalate = true)
    (hfind : db.disposition_assignments.find? (fun a =>
        a.id == input.assignment_id && a.assigned_to_user_id == userId &&
          a.is_completed == false) = some cur)
    (hreq : findRequest db cur.letter_request_id = some req) :
    (∀ admin, firstUserWithRole db UserRole.ADMIN = some admin →
      admin.role = UserRole.ADMIN ∧
      ∃ db2 a2, processDisposition db input userId now = (db2, Except.ok a2) ∧
        ∃ r2, findRequest db2 cur.letter_request_id = some r2 ∧
          r2.status = RequestStatus.ESCALATED ∧
          r2.current_handler_user_id = some admin.id) ∧
    (firstUserWithRole db UserRole.ADMIN = none →
      ∃ db2 a2, processDisposition db input userId now = (db2, Except.ok a2) ∧
        ∃ r2, findRequest db2 cur.letter_request_id = some r2 ∧
          r2.status = req.status ∧
          r2.current_handler_user_id = none) := by
  obtain ⟨db2, hrun, hfr, hasg⟩ :=
    processDisposition_found db input userId now cur req hfind hreq
  constructor
  · intro admin hadmin
    refine ⟨firstUserWithRole_role _ _ _ hadmin, db2, _, hrun, _, hfr, ?_, ?_⟩
    · simp [pdBranch, hesc, hadmin]
    · simp [pdBranch, hesc, hadmin]
  · intro hnone
    refine ⟨db2, _, hrun, _, hfr, ?_, ?_⟩
    · simp [pdBranch, hesc, hnone]
    · simp [pdBranch, hesc, hnone]

/-- C3 witness: on the store that does contain an ADMIN user, escalation
routes the concrete request to that admin with status `ESCALATED`. -/
theorem C3_escalation_routing_witness :
    exAdmin.role = UserRole.ADMIN ∧
    ∃ db2 a2, processDisposition exDbC3b exInpC3 3 9 = (db2, Except.ok a2) ∧
      ∃ r2, findRequest db2 exAsgC3.letter_request_id = some r2 ∧
        r2.status = RequestStatus.ESCALATED ∧
        r2.current_handler_user_id = some exAdmin.id :=
  (C3_escalation_routing exDbC3b exInpC3 3 9 exAsgC3 exReqC3 rfl rfl rfl).1
    exAdmin rfl

theorem statusRequiredRole_of_dispositionStatusFor (role : UserRole)
    (st : RequestStatus) (h : dispositionStatusFor role = some st) :
    statusRequiredRole st = some role := by
  cases role <;> simp_all [dispositionStatusFor] <;> subst h <;> rfl

/-- When every precondition of `createDisposition` holds and the first array
element's assignee has a mapped role, the call succeeds: the assignment rows
are persisted in input order with ascending ids, and the request gets the
status mapped from that first element's role, that assignee as handler, and
the instructions recorded. -/
theorem createDisposition_found (db : DB) (input : CreateDispositionInput)
    (dekanUserId now : Nat) (dekanUser : User) (req : LetterRequest)
    (firstA : AssignmentInput) (firstUser : User) (st : RequestStatus)
    (hdk : findUser db dekanUserId = some dekanUser)
    (hrole : dekanUser.role = UserRole.DEKAN)
    (hreq : findRequest db input.request_id = some req)
    (hst : req.status = RequestStatus.FORWARDED_TO_DEKAN)
    (hhead : input.assignments.head? = some firstA)
    (hvalid : validateAssignedUsers db input.assignments = Except.ok ())
    (hfu : findUser db firstA.user_id = some firstUser)
    (hmap : dispositionStatusFor firstUser.role = some st) :
    ∃ db2, createDisposition db input dekanUserId now =
        (db2, Except.ok (mkAssignments input.request_id dekanUserId
          input.instructions now (freshAssignmentId db) input.assignments)) ∧
      findRequest db2 input.request_id =
        some { req with
                 status := st
                 current_handler_user_id := some firstA.user_id
                 dekan_instructions := some input.instructions
                 updated_at := now } ∧
      db2.disposition_assignments = db.disposition_assignments ++
        mkAssignments input.request_id dekanUserId input.instructions now
          (freshAssignmentId db) input.assignments ∧
      db2.users = db.users := by
  unfold createDisposition
  rw [hdk]
  dsimp only
  rw [if_neg (by simp [hrole])]
  rw [hreq]
  dsimp only
  rw [if_neg (by simp [hst])]
  rw [hhead]
  dsimp only
  rw [hvalid]
  dsimp only
  rw [show findUser (addAssignments db (mkAssignments input.request_id dekanUserId
        input.instructions now (freshAssignmentId db) input.assignments))
      firstA.user_id = findUser db firstA.user_id from rfl]
  rw [hfu]
  dsimp only
  rw [hmap]
  dsimp only
  refine ⟨_, rfl, ?_, rfl, rfl⟩
  rw [findRequest_appendLog, findRequest_updateRequest]
  · rw [show findRequest (addAssignments db (mkAssignments input.request_id
          dekanUserId input.instructions now (freshAssignmentId db)
          input.assignments)) input.request_id
        = findRequest db input.request_id from rfl]
    rw [hreq]
    rfl
  · intro r
    rfl

/-- C4 counterexample: WD1 completes its sequence-1 assignment with no flags
while a KABAG_TU assignment (sequence 2) remains; `processDisposition` makes
the KABAG_TU user the handler but leaves the status at `DISPOSISI_TO_WD1`,
so the handler's role is not consistent with the status. -/
theorem C4_handler_consistency_counterexample :
    (processDisposition exDbC4 exInpC4 3 9).2 =
      Except.ok { exAsgC4a with
                    is_completed := true
                    completed_at := some 9
                    notes := none } ∧
    findRequest (processDisposition exDbC4 exInpC4 3 9).1 1 =
      some { exReqC4 with
               current_handler_user_id := some exKabag.id
               updated_at := 9 } ∧
    exKabag.role = UserRole.KABAG_TU ∧
    ¬ handlerRoleConsistent RequestStatus.DISPOSISI_TO_WD1 UserRole.KABAG_TU :=
  ⟨rfl, rfl, rfl, by
    unfold handlerRoleConsistent statusRequiredRole
    simp⟩

/-- C4 (amended): `createDisposition` does establish the spec's
handler-role/status consistency — on success the new status is the one
mapped from the first array element's assignee role and the handler is that
assignee, so the handler's role matches the status. The invariant is not
preserved by `processDisposition`'s advance-to-next step, which changes the
handler while leaving the status unchanged (see the counterexample). -/
theorem C4_handler_consistency_at_createDisposition (db : DB)
    (input : CreateDispositionInput) (dekanUserId now : Nat)
    (dekanUser : User) (req : LetterRequest) (firstA : AssignmentInput)
    (firstUser : User) (st : RequestStatus)
    (hdk : findUser db dekanUserId = some dekanUser)
    (hrole : dekanUser.role = UserRole.DEKAN)
    (hreq : findRequest db input.request_id = some req)
    (hst : req.status = RequestStatus.FORWARDED_TO_DEKAN)
    (hhead : input.assignments.head? = some firstA)
    (hvalid : validateAssignedUsers db input.assignments = Except.ok ())
    (hfu : findUser db firstA.user_id = some firstUser)
    (hmap : dispositionStatusFor firstUser.role = some st) :
    ∃ db2 r2, createDisposition db input dekanUserId now =
        (db2, Except.ok (mkAssignments input.request_id dekanUserId
          input.instructions now (freshAssignmentId db) input.assignments)) ∧
      findRequest db2 input.request_id = some r2 ∧
      r2.current_handler_user_id = some firstA.user_id ∧
      firstUser.id = firstA.user_id ∧
      findUser db2 firstA.user_id = some firstUser ∧
      handlerRoleConsistent r2.status firstUser.role := by
  obtain ⟨db2, hrun, hfr, hasg, husers⟩ :=
    createDisposition_found db input dekanUserId now dekanUser req firstA
      firstUser st hdk hrole hreq hst hhead hvalid hfu hmap
  refine ⟨db2, _, hrun, hfr, rfl, ?_, ?_, ?_⟩
  · have := List.find?_some hfu
    simpa using this
  · unfold findUser at hfu ⊢
    rw [husers]
    exact hfu
  · show handlerRoleConsistent st firstUser.role
    unfold handlerRoleConsistent
    rw [statusRequiredRole_of_dispositionStatusFor _ _ hmap]

/-- C4 witness: on the concrete `FORWARDED_TO_DEKAN` request the dean's
disposition leaves a handler whose role matches the new status. -/
theorem C4_handler_consistency_at_createDisposition_witness :
    ∃ db2 r2, createDisposition exDbDisp exInpC4w 2 9 =
        (db2, Except.ok (mkAssignments exInpC4w.request_id 2
          exInpC4w.instructions 9 (freshAssignmentId exDbDisp)
          exInpC4w.assignments)) ∧
      findRequest db2 exInpC4w.request_id = some r2 ∧
      r2.current_handler_user_id = some 3 ∧
      exWd1.id = 3 ∧
      findUser db2 3 = some exWd1 ∧
      handlerRoleConsistent r2.status exWd1.role :=
  C4_handler_consistency_at_createDisposition exDbDisp exInpC4w 2 9 exDekan
    exReqDisp { user_id := 3, order_sequence := 1 } exWd1
    RequestStatus.DISPOSISI_TO_WD1 rfl rfl rfl rfl rfl rfl rfl rfl

/-- C5 counterexample: with the assignments array supplied out of sequence
order, the entry with the smallest `order_sequence` is the WD1 user, yet
`createDisposition` sets the status from the array's first element — the
KABAG_TU user — producing `DISPOSISI_TO_KABAG_TU` and handler 4, not
`DISPOSISI_TO_WD1`. -/
theorem C5_first_sequence_counterexample :
    exInpC5x.assignments.head? = some { user_id := 4, order_sequence := 2 } ∧
    (∀ a ∈ exInpC5x.assignments,
      (1 : Int) ≤ a.order_sequence) ∧
    (∃ a ∈ exInpC5x.assignments, a.order_sequence = 1 ∧ a.user_id = 3) ∧
    findUser exDbDisp 3 = some exWd1 ∧
    exWd1.role = UserRole.WD1 ∧
    dispositionStatusFor UserRole.WD1 = some RequestStatus.DISPOSISI_TO_WD1 ∧
    findRequest (createDisposition exDbDisp exInpC5x 2 9).1 1 =
      some { exReqDisp with
               status := RequestStatus.DISPOSISI_TO_KABAG_TU
               current_handler_user_id := some 4
               dekan_instructions := some "disposisi"
               updated_at := 9 } ∧
    RequestStatus.DISPOSISI_TO_KABAG_TU ≠ RequestStatus.DISPOSISI_TO_WD1 :=
  ⟨rfl, by decide, by decide, rfl, rfl, rfl, rfl, by decide⟩

/-- C5 (amended): on a `FORWARDED_TO_DEKAN` request, a dean's
`createDisposition` with all assigned users existing sets the status to the
`DISPOSISI_TO_<role>` constant mapped from the role of the assignee in the
FIRST ELEMENT of the assignments array as supplied (positionally — which is
the smallest-`order_sequence` assignee only when the array is sorted), makes
that assignee the handler, records the instructions, and persists one
assignment row per entry in input order; a first-element assignee whose role
has no mapped status constant makes the call fail. -/
theorem C5_createDisposition_first_array_element (db : DB)
    (input : CreateDispositionInput) (dekanUserId now : Nat)
    (dekanUser : User) (req : LetterRequest) (firstA : AssignmentInput)
    (firstUser : User)
    (hdk : findUser db dekanUserId = some dekanUser)
    (hrole : dekanUser.role = UserRole.DEKAN)
    (hreq : findRequest db input.request_id = some req)
    (hst : req.status = RequestStatus.FORWARDED_TO_DEKAN)
    (hhead : input.assignments.head? = some firstA)
    (hvalid : validateAssignedUsers db input.assignments = Except.ok ())
    (hfu : findUser db firstA.user_id = some firstUser) :
    (∀ st, dispositionStatusFor firstUser.role = some st →
      ∃ db2, createDisposition db input dekanUserId now =
          (db2, Except.ok (mkAssignments input.request_id dekanUserId
            input.instructions now (freshAssignmentId db) input.assignments)) ∧
        findRequest db2 input.request_id =
          some { req with
                   status := st
                   current_handler_user_id := some firstA.user_id
                   dekan_instructions := some input.instructions
                   updated_at := now } ∧
        db2.disposition_assignments = db.disposition_assignments ++
          mkAssignments input.request_id dekanUserId input.instructions now
            (freshAssignmentId db) input.assignments) ∧
    (dispositionStatusFor firstUser.role = none →
      (createDisposition db input dekanUserId now).2 =
        Except.error "Invalid role for disposition assignment") := by
  constructor
  · intro st hmap
    obtain ⟨db2, hrun, hfr, hasg, _⟩ :=
      createDisposition_found db input dekanUserId now dekanUser req firstA
        firstUser st hdk hrole hreq hst hhead hvalid hfu hmap
    exact ⟨db2, hrun, hfr, hasg⟩
  · intro hnone
    unfold createDisposition
    rw [hdk]
    dsimp only
    rw [if_neg (by simp [hrole])]
    rw [hreq]
    dsimp only
    rw [if_neg (by simp [hst])]
    rw [hhead]
    dsimp only
    rw [hvalid]
    dsimp only
    rw [show findUser (addAssignments db (mkAssignments input.request_id
          dekanUserId input.instructions now (freshAssignmentId db)
          input.assignments)) firstA.user_id
        = findUser db firstA.user_id from rfl]
    rw [hfu]
    dsimp only
    rw [hnone]

/-- C5 witness: the amended rule evaluated on the out-of-order array — the
first element is the KABAG_TU assignee, and the request indeed moves to
`DISPOSISI_TO_KABAG_TU` with handler 4 and the rows persisted in input
order. -/
theorem C5_createDisposition_first_array_element_witness :
    ∃ db2, createDisposition exDbDisp exInpC5x 2 9 =
        (db2, Except.ok (mkAssignments exInpC5x.request_id 2
          exInpC5x.instructions 9 (freshAssignmentId exDbDisp)
          exInpC5x.assignments)) ∧
      findRequest db2 exInpC5x.request_id =
        some { exReqDisp with
                 status := RequestStatus.DISPOSISI_TO_KABAG_TU
                 current_handler_user_id :=
                   some ({ user_id := 4, order_sequence := 2 } : AssignmentInput).user_id
                 dekan_instructions := some exInpC5x.instructions
                 updated_at := 9 } ∧
      db2.disposition_assignments = exDbDisp.disposition_assignments ++
        mkAssignments exInpC5x.request_id 2 exInpC5x.instructions 9
          (freshAssignmentId exDbDisp) exInpC5x.assignments :=
  (C5_createDisposition_first_array_element exDbDisp exInpC5x 2 9 exDekan
    exReqDisp { user_id := 4, order_sequence := 2 } exKabag
    rfl rfl rfl rfl rfl rfl rfl).1 RequestStatus.DISPOSISI_TO_KABAG_TU rfl

/-- C2 (spec-modelled `updateRequestStatus`): on an existing request, an
acting user who is neither the creator nor the current handler gets the
permission error and no mutation; a creator or current handler gets the
status set to `newStatus`, the handler replaced only when `nextHandler` is
provided, `updated_at` set to now, and exactly one appended TrackingLog row
carrying the previous/new status pair and the notes. -/
theorem C2_updateRequestStatus_contract (db : DB)
    (input : UpdateRequestStatusInput) (userId now : Nat)
    (req : LetterRequest)
    (hreq : findRequest db input.request_id = some req) :
    (req.created_by_user_id ≠ userId ∧
        req.current_handler_user_id ≠ some userId →
      updateRequestStatus db input userId now =
        (db, Except.error "User does not have permission to update this request")) ∧
    (req.created_by_user_id = userId ∨
        req.current_handler_user_id = some userId →
      ∃ db2 r2, updateRequestStatus db input userId now =
          (db2, Except.ok r2) ∧
        r2.status = input.new_status ∧
        r2.current_handler_user_id =
          (match input.next_handler_user_id with
           | some h2 => some h2
           | none => req.current_handler_user_id) ∧
        r2.updated_at = now ∧
        ∃ l, db2.tracking_logs = db.tracking_logs ++ [l] ∧
          l.letter_request_id = input.request_id ∧
          l.user_id = userId ∧
          l.previous_status = some req.status ∧
          l.new_status = some input.new_status ∧
          l.notes = notesOrNull input.notes) := by
  constructor
  · intro hno
    unfold updateRequestStatus
    rw [hreq]
    dsimp only
    rw [if_pos hno]
  · intro hyes
    unfold updateRequestStatus
    rw [hreq]
    dsimp only
    rw [if_neg (by
      rintro ⟨h1, h2⟩
      rcases hyes with h | h
      · exact h1 h
      · exact h2 h)]
    exact ⟨_, _, rfl, rfl, rfl, rfl, _, rfl, rfl, rfl, rfl, rfl, rfl⟩

/-- C2 witness: user 99 is neither creator nor handler of the concrete
request, and the call is rejected with the permission error, leaving the
store unchanged. -/
theorem C2_updateRequestStatus_contract_witness :
    updateRequestStatus exDbC2 exInpC2 99 9 =
      (exDbC2, Except.error "User does not have permission to update this request") :=
  (C2_updateRequestStatus_contract exDbC2 exInpC2 99 9 exReqC2 rfl).1
    (by decide)

/-- C6: for a dean acting on an existing request, `signLetter` fails when the
status is not `TTD_READY` or the final letter URL is absent or empty (and
when no faculty-staff user exists to hand off to); when the status is
`TTD_READY` and the URL is non-empty and a faculty-staff user exists, it
sets the status to `TTD_DONE`, makes the first faculty-staff user the
handler, and appends exactly two TrackingLog rows — `SIGNED`
(TTD_READY → TTD_DONE) then `FORWARDED` (TTD_DONE → TTD_DONE) — both
attributed to the signing dean. -/
theorem C6_signLetter_contract (db : DB) (input : SignLetterInput)
    (dekanUserId now : Nat) (dekan : User) (req : LetterRequest)
    (hdk : db.users.find? (fun u =>
        u.id == dekanUserId && u.role == UserRole.DEKAN) = some dekan)
    (hreq : findRequest db input.request_id = some req) :
    dekan.role = UserRole.DEKAN ∧
    (req.status ≠ RequestStatus.TTD_READY →
      signLetter db input dekanUserId now =
        (db, Except.error "Letter request is not ready for signing")) ∧
    (req.status = RequestStatus.TTD_READY → req.final_letter_url = none →
      signLetter db input dekanUserId now =
        (db, Except.error "Final letter document not found")) ∧
    (req.status = RequestStatus.TTD_READY → req.final_letter_url = some "" →
      signLetter db input dekanUserId now =
        (db, Except.error "Final letter document not found")) ∧
    (∀ url, req.status = RequestStatus.TTD_READY →
      req.final_letter_url = some url → url ≠ "" →
      firstUserWithRole db UserRole.STAFF_FAKULTAS = none →
      signLetter db input dekanUserId now =
        (db, Except.error "No Staff Fakultas available to handle signed letter")) ∧
    (∀ url staff, req.status = RequestStatus.TTD_READY →
      req.final_letter_url = some url → url ≠ "" →
      firstUserWithRole db UserRole.STAFF_FAKULTAS = some staff →
      ∃ db2 r2, signLetter db input dekanUserId now = (db2, Except.ok r2) ∧
        r2.status = RequestStatus.TTD_DONE ∧
        r2.current_handler_user_id = some staff.id ∧
        staff.role = UserRole.STAFF_FAKULTAS ∧
        ∃ l1 l2, db2.tracking_logs = db.tracking_logs ++ [l1, l2] ∧
          l1.action_type = ActionType.SIGNED ∧
          l1.previous_status = some RequestStatus.TTD_READY ∧
          l1.new_status = some RequestStatus.TTD_DONE ∧
          l1.user_id = dekanUserId ∧
          l2.action_type = ActionType.FORWARDED ∧
          l2.previous_status = some RequestStatus.TTD_DONE ∧
          l2.new_status = some RequestStatus.TTD_DONE ∧
          l2.user_id = dekanUserId) := by
  have hrole : dekan.role = UserRole.DEKAN := by
    have := List.find?_some hdk
    simp at this
    exact this.2
  refine ⟨hrole, ?_, ?_, ?_, ?_, ?_⟩
  · intro hst
    unfold signLetter
    rw [hdk]
    dsimp only
    rw [hreq]
    dsimp only
    rw [if_pos hst]
  · intro hst hurl
    unfold signLetter
    rw [hdk]
    dsimp only
    rw [hreq]
    dsimp only
    rw [if_neg (by simp [hst]), hurl]
  · intro hst hurl
    unfold signLetter
    rw [hdk]
    dsimp only
    rw [hreq]
    dsimp only
    rw [if_neg (by simp [hst]), hurl]
    dsimp only
    rw [if_pos rfl]
  · intro url hst hurl hne hstaff
    unfold signLetter
    rw [hdk]
    dsimp only
    rw [hreq]
    dsimp only
    rw [if_neg (by simp [hst]), hurl]
    dsimp only
    rw [if_neg hne, hstaff]
  · intro url staff hst hurl hne hstaff
    unfold signLetter
    rw [hdk]
    dsimp only
    rw [hreq]
    dsimp only
    rw [if_neg (by simp [hst]), hurl]
    dsimp only
    rw [if_neg hne, hstaff]
    dsimp only
    refine ⟨_, _, rfl, rfl, rfl, firstUserWithRole_role _ _ _ hstaff, ?_⟩
    refine ⟨{ letter_request_id := input.request_id, user_id := dekanUserId,
              action_type := ActionType.SIGNED,
              description := "Letter digitally signed by Dean",
              notes := some ("Digital signature applied using signature data: " ++
                (input.signature_data.take 20) ++ "..."),
              previous_status := some RequestStatus.TTD_READY,
              new_status := some RequestStatus.TTD_DONE, created_at := now },
            { letter_request_id := input.request_id, user_id := dekanUserId,
              action_type := ActionType.FORWARDED,
              description := "Signed letter forwarded to Staff Fakultas for return processing",
              notes := some "Letter ready for return to prodi or delivery",
              previous_status := some RequestStatus.TTD_DONE,
              new_status := some RequestStatus.TTD_DONE, created_at := now },
            ?_, rfl, rfl, rfl, rfl, rfl, rfl, rfl, rfl⟩
    show (db.tracking_logs ++ [_]) ++ [_] = _
    rw [List.append_assoc]
    rfl

/-- C6 witness: the dean signs the concrete `TTD_READY` request with a
non-empty final letter URL; the status becomes `TTD_DONE`, the faculty-staff
user becomes handler, and exactly the SIGNED and FORWARDED log rows are
appended, both attributed to the dean. -/
theorem C6_signLetter_contract_witness :
    ∃ db2 r2, signLetter exDbC6 exInpC6 2 9 = (db2, Except.ok r2) ∧
      r2.status = RequestStatus.TTD_DONE ∧
      r2.current_handler_user_id = some exStaf.id ∧
      exStaf.role = UserRole.STAFF_FAKULTAS ∧
      ∃ l1 l2, db2.tracking_logs = exDbC6.tracking_logs ++ [l1, l2] ∧
        l1.action_type = ActionType.SIGNED ∧
        l1.previous_status = some RequestStatus.TTD_READY ∧
        l1.new_status = some RequestStatus.TTD_DONE ∧
        l1.user_id = 2 ∧
        l2.action_type = ActionType.FORWARDED ∧
        l2.previous_status = some RequestStatus.TTD_DONE ∧
        l2.new_status = some RequestStatus.TTD_DONE ∧
        l2.user_id = 2 :=
  (C6_signLetter_contract exDbC6 exInpC6 2 9 exDekan exReqC6 rfl
    rfl).2.2.2.2.2 "https://files/letter.pdf" exStaf rfl rfl (by decide) rfl

theorem validateAssignedUsers_error (db : DB) :
    ∀ l : List AssignmentInput, (∃ a ∈ l, findUser db a.user_id = none) →
      validateAssignedUsers db l = Except.error "Assigned user not found" := by
  intro l
  induction l with
  | nil =>
      rintro ⟨a, ha, _⟩
      cases ha
  | cons x t ih =>
      rintro ⟨a, ha, hnone⟩
      rcases List.mem_cons.mp ha with h | h
      · subst h
        unfold validateAssignedUsers
        rw [hnone]
      · unfold validateAssignedUsers
        cases hx : findUser db x.user_id with
        | none => rfl
        | some u => exact ih ⟨a, h, hnone⟩

/-- C7: every listed precondition failure of `createDisposition` — acting
user missing or not a dean, request missing, request not in
`FORWARDED_TO_DEKAN`, or some assigned user missing — raises an error and
returns the store unchanged (no assignment rows, no request mutation, no
TrackingLog). -/
theorem C7_createDisposition_failures_leave_state (db : DB)
    (input : CreateDispositionInput) (dekanUserId now : Nat) :
    (findUser db dekanUserId = none →
      createDisposition db input dekanUserId now =
        (db, Except.error "Only Dekan can create disposition assignments")) ∧
    (∀ u, findUser db dekanUserId = some u → u.role ≠ UserRole.DEKAN →
      createDisposition db input dekanUserId now =
        (db, Except.error "Only Dekan can create disposition assignments")) ∧
    (∀ u, findUser db dekanUserId = some u → u.role = UserRole.DEKAN →
      findRequest db input.request_id = none →
      createDisposition db input dekanUserId now =
        (db, Except.error "Letter request not found")) ∧
    (∀ u req, findUser db dekanUserId = some u → u.role = UserRole.DEKAN →
      findRequest db input.request_id = some req →
      req.status ≠ RequestStatus.FORWARDED_TO_DEKAN →
      createDisposition db input dekanUserId now =
        (db, Except.error
          "Letter request must be in FORWARDED_TO_DEKAN status to create disposition")) ∧
    (∀ u req, findUser db dekanUserId = some u → u.role = UserRole.DEKAN →
      findRequest db input.request_id = some req →
      req.status = RequestStatus.FORWARDED_TO_DEKAN →
      (∃ a ∈ input.assignments, findUser db a.user_id = none) →
      createDisposition db input dekanUserId now =
        (db, Except.error "Assigned user not found")) := by
  refine ⟨?_, ?_, ?_, ?_, ?_⟩
  · intro hnone
    unfold createDisposition
    rw [hnone]
  · intro u hu hr
    unfold createDisposition
    rw [hu]
    dsimp only
    rw [if_pos hr]
  · intro u hu hr hnone
    unfold createDisposition
    rw [hu]
    dsimp only
    rw [if_neg (by simp [hr]), hnone]
  · intro u req hu hr hreq hst
    unfold createDisposition
    rw [hu]
    dsimp only
    rw [if_neg (by simp [hr]), hreq]
    dsimp only
    rw [if_pos hst]
  · intro u req hu hr hreq hst hex
    have hne : input.assignments ≠ [] := by
      rintro hempty
      rcases hex with ⟨a, ha, _⟩
      rw [hempty] at ha
      cases ha
    rcases hl : input.assignments with _ | ⟨x, t⟩
    · exact absurd hl hne
    · unfold createDisposition
      rw [hu]
      dsimp only
      rw [if_neg (by simp [hr]), hreq]
      dsimp only
      rw [if_neg (by simp [hst]), hl]
      rw [show (x :: t).head? = some x from rfl]
      dsimp only
      rw [validateAssignedUsers_error db (x :: t) (hl ▸ hex)]

/-- C7 witness: creating a disposition on the concrete request that is still
in `DISPOSISI_TO_WD1` (not `FORWARDED_TO_DEKAN`) fails and returns the store
unchanged. -/
theorem C7_createDisposition_failures_leave_state_witness :
    createDisposition exDbC4 exInpC7 2 9 =
      (exDbC4, Except.error
        "Letter request must be in FORWARDED_TO_DEKAN status to create disposition") :=
  (C7_createDisposition_failures_leave_state exDbC4 exInpC7 2 9).2.2.2.1
    exDekan exReqC4 rfl rfl rfl (by decide)

/-- C8: `processDisposition` fails with the single NotFound-style error when
the assignment id matches no row, when every row with that id is assigned to
someone else, or when every row with that id is already completed — and in
each case the store is returned unchanged. Consequently re-processing an
assignment that a successful call just completed always fails and mutates
nothing. -/
theorem C8_processDisposition_notfound (db : DB)
    (input : ProcessDispositionInput) (userId now : Nat) :
    ((∀ a ∈ db.disposition_assignments, a.id ≠ input.assignment_id) →
      processDisposition db input userId now =
        (db, Except.error
          "Assignment not found or not assigned to user or already completed")) ∧
    ((∀ a ∈ db.disposition_assignments, a.id = input.assignment_id →
        a.assigned_to_user_id ≠ userId) →
      processDisposition db input userId now =
        (db, Except.error
          "Assignment not found or not assigned to user or already completed")) ∧
    ((∀ a ∈ db.disposition_assignments, a.id = input.assignment_id →
        a.is_completed = true) →
      processDisposition db input userId now =
        (db, Except.error
          "Assignment not found or not assigned to user or already completed")) ∧
    (∀ cur req, db.disposition_assignments.find? (fun a =>
        a.id == input.assignment_id && a.assigned_to_user_id == userId &&
          a.is_completed == false) = some cur →
      findRequest db cur.letter_request_id = some req →
      ∀ db2 a2, processDisposition db input userId now = (db2, Except.ok a2) →
      ∀ (input2 : ProcessDispositionInput) (userId2 now2 : Nat),
        input2.assignment_id = input.assignment_id →
        processDisposition db2 input2 userId2 now2 =
          (db2, Except.error
            "Assignment not found or not assigned to user or already completed")) := by
  refine ⟨?_, ?_, ?_, ?_⟩
  · intro hall
    have hnone : db.disposition_assignments.find? (fun a =>
        a.id == input.assignment_id && a.assigned_to_user_id == userId &&
          a.is_completed == false) = none := by
      apply List.find?_eq_none.mpr
      intro a ha
      simp [hall a ha]
    unfold processDisposition
    rw [hnone]
  · intro hall
    have hnone : db.disposition_assignments.find? (fun a =>
        a.id == input.assignment_id && a.assigned_to_user_id == userId &&
          a.is_completed == false) = none := by
      apply List.find?_eq_none.mpr
      intro a ha
      by_cases hid : a.id = input.assignment_id
      · simp [hid, hall a ha hid]
      · simp [hid]
    unfold processDisposition
    rw [hnone]
  · intro hall
    have hnone : db.disposition_assignments.find? (fun a =>
        a.id == input.assignment_id && a.assigned_to_user_id == userId &&
          a.is_completed == false) = none := by
      apply List.find?_eq_none.mpr
      intro a ha
      by_cases hid : a.id = input.assignment_id
      · simp [hid, hall a ha hid]
      · simp [hid]
    unfold processDisposition
    rw [hnone]
  · intro cur req hfind hreq db2 a2 hsucc input2 userId2 now2 haid
    obtain ⟨db2x, hrun, hfr, hasg⟩ :=
      processDisposition_found db input userId now cur req hfind hreq
    rw [hrun] at hsucc
    simp only [Prod.mk.injEq, Except.ok.injEq] at hsucc
    obtain ⟨hdb, _⟩ := hsucc
    have hnone : db2.disposition_assignments.find? (fun a =>
        a.id == input2.assignment_id && a.assigned_to_user_id == userId2 &&
          a.is_completed == false) = none := by
      rw [← hdb, hasg]
      apply List.find?_eq_none.mpr
      intro x hx
      obtain ⟨y, hy, hxy⟩ := List.mem_map.mp hx
      subst hxy
      by_cases hid : y.id = input.assignment_id
      · simp [hid, haid]
      · simp [hid, haid]
    unfold processDisposition
    rw [hnone]

/-- C8 witness: WD1 processes its concrete assignment once successfully; the
exact same call issued against the resulting store is rejected with the
NotFound-style error and leaves the store unchanged. -/
theorem C8_processDisposition_notfound_witness :
    processDisposition (processDisposition exDbC4 exInpC4 3 9).1 exInpC4 3 11 =
      ((processDisposition exDbC4 exInpC4 3 9).1,
        Except.error
          "Assignment not found or not assigned to user or already completed") :=
  (C8_processDisposition_notfound exDbC4 exInpC4 3 9).2.2.2 exAsgC4a exReqC4
    rfl rfl (processDisposition exDbC4 exInpC4 3 9).1 exAsgC8done rfl
    exInpC4 3 11 rfl

theorem mem_insertDesc (r a : LetterRequest) :
    ∀ l, a ∈ insertDesc r l ↔ a = r ∨ a ∈ l := by
  intro l
  induction l with
  | nil => simp [insertDesc]
  | cons x xs ih =>
      unfold insertDesc
      by_cases h : r.created_at ≤ x.created_at
      · rw [if_pos h]
        simp only [List.mem_cons, ih]
        tauto
      · rw [if_neg h]
        simp only [List.mem_cons]

theorem mem_sortByCreatedAtDesc (a : LetterRequest) :
    ∀ l, a ∈ sortByCreatedAtDesc l ↔ a ∈ l := by
  intro l
  induction l with
  | nil => simp [sortByCreatedAtDesc]
  | cons x xs ih =>
      unfold sortByCreatedAtDesc
      rw [mem_insertDesc]
      simp only [List.mem_cons, ih]

/-- Any row returned by `getRequests` with a recognised acting user passes
that user's role-scope predicate. -/
theorem getRequests_some_scope (db : DB) (filter : Option GetRequestsFilter)
    (uid : Nat) (u : User) (r : LetterRequest)
    (hu : findUser db uid = some u)
    (hr : r ∈ getRequests db filter (some uid)) :
    roleScopePred db u uid r = true := by
  unfold getRequests at hr
  dsimp only at hr
  rw [hu] at hr
  dsimp only at hr
  rw [mem_sortByCreatedAtDesc] at hr
  cases filter with
  | none => exact (List.mem_filter.mp hr).2
  | some f => exact (List.mem_filter.mp (List.mem_filter.mp hr).1).2

/-- C9 (amended): `getRequests` applies a role-based scope before the
explicit filters — an unknown acting user id yields the empty list; a
STUDENT sees only self-created requests; a program staff/chair WITH a
non-empty program affiliation sees only requests whose student is in that
program; faculty-level roles see only requests where they are handler or
creator; an ADMIN's result is identical to the unscoped result; and — the
correction — a program staff/chair whose `prodi` is null has NO scope
applied at all, also receiving the unscoped result. -/
theorem C9_getRequests_role_scope (db : DB) (filter : Option GetRequestsFilter)
    (uid : Nat) :
    (findUser db uid = none → getRequests db filter (some uid) = []) ∧
    (∀ u, findUser db uid = some u → u.role = UserRole.STUDENT →
      ∀ r ∈ getRequests db filter (some uid), r.created_by_user_id = uid) ∧
    (∀ u p, findUser db uid = some u →
      (u.role = UserRole.STAFF_PRODI ∨ u.role = UserRole.KAPRODI) →
      u.prodi = some p → p ≠ "" →
      ∀ r ∈ getRequests db filter (some uid), studentProdiOf db r = some p) ∧
    (∀ u, findUser db uid = some u →
      (u.role = UserRole.DEKAN ∨ u.role = UserRole.STAFF_FAKULTAS ∨
        u.role = UserRole.WD1 ∨ u.role = UserRole.WD2 ∨
        u.role = UserRole.WD3 ∨ u.role = UserRole.KABAG_TU ∨
        u.role = UserRole.KAUR_AKADEMIK ∨
        u.role = UserRole.KAUR_KEMAHASISWAAN ∨
        u.role = UserRole.KAUR_KEUANGAN) →
      ∀ r ∈ getRequests db filter (some uid),
        r.current_handler_user_id = some uid ∨ r.created_by_user_id = uid) ∧
    (∀ u, findUser db uid = some u → u.role = UserRole.ADMIN →
      getRequests db filter (some uid) = getRequests db filter none) ∧
    (∀ u, findUser db uid = some u →
      (u.role = UserRole.STAFF_PRODI ∨ u.role = UserRole.KAPRODI) →
      u.prodi = none →
      getRequests db filter (some uid) = getRequests db filter none) := by
  refine ⟨?_, ?_, ?_, ?_, ?_, ?_⟩
  · intro hnone
    apply List.eq_nil_iff_forall_not_mem.mpr
    intro r hr
    unfold getRequests at hr
    dsimp only at hr
    rw [hnone] at hr
    dsimp only at hr
    rw [mem_sortByCreatedAtDesc] at hr
    cases filter with
    | none => simp [List.mem_filter] at hr
    | some f => simp [List.mem_filter] at hr
  · intro u hu hrole r hr
    have hs := getRequests_some_scope db filter uid u r hu hr
    unfold roleScopePred at hs
    simp only [hrole] at hs
    simpa using hs
  · intro u p hu hrole hprodi hne r hr
    have hs := getRequests_some_scope db filter uid u r hu hr
    unfold roleScopePred at hs
    rcases hrole with h | h <;>
      · simp only [h, hprodi] at hs
        rw [if_neg hne] at hs
        simpa using hs
  · intro u hu hrole r hr
    have hs := getRequests_some_scope db filter uid u r hu hr
    unfold roleScopePred at hs
    rcases hrole with h | h | h | h | h | h | h | h | h <;>
      · simp only [h] at hs
        simpa using hs
  · intro u hu hrole
    have hall : ∀ q, roleScopePred db u uid q = true := by
      intro q
      unfold roleScopePred
      simp only [hrole]
    unfold getRequests
    dsimp only
    rw [hu]
    dsimp only
    rw [List.filter_eq_self.mpr (fun a _ => hall a)]
  · intro u hu hrole hprodi
    have hall : ∀ q, roleScopePred db u uid q = true := by
      intro q
      unfold roleScopePred
      rcases hrole with h | h <;> simp only [h, hprodi]
    unfold getRequests
    dsimp only
    rw [hu]
    dsimp only
    rw [List.filter_eq_self.mpr (fun a _ => hall a)]

/-- C9 counterexample: user 9 is a KAPRODI whose `prodi` is null; listing as
that user returns the request of program "TI" — a request whose target
student does not belong to any program of the actor (who also neither
created nor handles it), so program chairs do not see "only requests whose
target student belongs to their own program". -/
theorem C9_getRequests_role_scope_counterexample :
    findUser exDbC9 9 = some exKaprodiNull ∧
    exKaprodiNull.role = UserRole.KAPRODI ∧
    exKaprodiNull.prodi = none ∧
    studentProdiOf exDbC9 exReqC9 = some "TI" ∧
    getRequests exDbC9 none (some 9) = [exReqC9] ∧
    exReqC9.created_by_user_id ≠ 9 ∧
    exReqC9.current_handler_user_id ≠ some 9 :=
  ⟨rfl, rfl, rfl, rfl, rfl, by decide, by decide⟩

/-- C9 witness: the amended rule applied to the concrete store — the
null-prodi KAPRODI receives exactly the unscoped result set. -/
theorem C9_getRequests_role_scope_witness :
    getRequests exDbC9 none (some 9) = getRequests exDbC9 none none :=
  (C9_getRequests_role_scope exDbC9 none 9).2.2.2.2.2 exKaprodiNull rfl
    (Or.inr rfl) rfl

/-- C10: `createDisposition` called with an empty assignments array always
fails (the unguarded reads of the array's first element are reached only
behind the preconditions, and on an empty array the call throws before any
row is written), leaving every table unchanged. -/
theorem C10_createDisposition_empty_assignments (db : DB)
    (input : CreateDispositionInput) (dekanUserId now : Nat)
    (hempty : input.assignments = []) :
    (createDisposition db input dekanUserId now).1 = db ∧
    ∃ msg, (createDisposition db input dekanUserId now).2 = Except.error msg := by
  unfold createDisposition
  cases h1 : findUser db dekanUserId with
  | none => exact ⟨rfl, _, rfl⟩
  | some u =>
    dsimp only
    by_cases hrole : u.role ≠ UserRole.DEKAN
    · rw [if_pos hrole]
      exact ⟨rfl, _, rfl⟩
    · rw [if_neg hrole]
      cases h2 : findRequest db input.request_id with
      | none => exact ⟨rfl, _, rfl⟩
      | some req =>
        dsimp only
        by_cases hst : req.status ≠ RequestStatus.FORWARDED_TO_DEKAN
        · rw [if_pos hst]
          exact ⟨rfl, _, rfl⟩
        · rw [if_neg hst]
          rw [hempty]
          exact ⟨rfl, _, rfl⟩

/-- C10 witness: the dean calling `createDisposition` with an empty
assignments array on the concrete `FORWARDED_TO_DEKAN` request fails and
leaves the store unchanged. -/
theorem C10_createDisposition_empty_assignments_witness :
    (createDisposition exDbDisp exInpC10 2 9).1 = exDbDisp ∧
    ∃ msg, (createDisposition exDbDisp exInpC10 2 9).2 = Except.error msg :=
  C10_createDisposition_empty_assignments exDbDisp exInpC10 2 9 rfl
